import Mathlib

/-!
# SwagUp API client — shallow embedding

A shallow embedding of `src/api.py` (class `SwagUpApiClient`).  The HTTP
transport is modelled as a function from outbound requests to responses; a
response carries a numeric status code and a body that either parses as JSON
(`some j`) or does not (`none`), mirroring the transport contract
`send(method, url, headers, json_body|files) -> (status_code, json_body|bytes)`.
Python floats carry no arithmetic here, so JSON numbers are rationals.
Exception-based signalling (`raise ValueError(...)`, and the uncaught
`JSONDecodeError` escaping `response.json()`) is embedded as `Except`: each
distinct raise site becomes a distinct `HandleError` constructor, and
`HandleError.message` recovers the exact `ValueError` message strings.
-/

/-- JSON values as produced by the transport's body parser. -/
inductive Json where
  | null
  | bool (b : Bool)
  | num (q : Rat)
  | str (s : String)
  | arr (elems : List Json)
  | obj (fields : List (String × Json))

/-- The top-level keys of a JSON object (in order), `[]` for non-objects. -/
def Json.keys : Json → List String
  | .obj fields => fields.map Prod.fst
  | _ => []

/-- HTTP verbs used by the client (`requests.get/post/delete`). -/
inductive HttpMethod where
  | get
  | post
  | delete

/-- The body of an outbound request: a JSON payload (the `json=` keyword
argument of `requests.post`), multipart form fields (the `files=` keyword
argument), or no body at all (GET/DELETE calls). -/
inductive RequestBody where
  | jsonBody (payload : Json)
  | multipart (files : List (String × String))
  | noBody

/-- Whether the body is a JSON payload. -/
def RequestBody.isJson : RequestBody → Bool
  | .jsonBody _ => true
  | _ => false

/-- The Content-Type media type the `requests` library selects automatically
for each kind of body (`json=` yields application/json, `files=` yields
multipart/form-data with a boundary parameter, no body yields no type). -/
def RequestBody.contentType : RequestBody → String
  | .jsonBody _ => "application/json"
  | .multipart _ => "multipart/form-data"
  | .noBody => ""

/-- A fully-formed outbound HTTP request handed to the transport. -/
structure Request where
  method : HttpMethod
  url : String
  headers : List (String × String)
  body : RequestBody

/-- The Content-Type media type of a request, per its body kind. -/
def Request.contentType (r : Request) : String :=
  r.body.contentType

/-- The keys of a request's JSON payload (empty when the body is not JSON). -/
def Request.jsonBodyKeys (r : Request) : List String :=
  match r.body with
  | .jsonBody j => j.keys
  | _ => []

/-- What the transport hands back: the status code, and the result of
attempting to parse the body as JSON (`none` when the body is not valid
JSON, in which case `response.json()` raises). -/
structure HttpResponse where
  status_code : Nat
  json_body : Option Json

/-- The client's configuration, set in `__init__` (src/api.py lines 43-52):
`self.base_url = base_url; self.api_key = api_key`. -/
structure SwagUpApiClient where
  base_url : String
  api_key : String

/-- The errors that can escape `_handle_response`: one constructor per
distinct `raise ValueError(...)` site (src/api.py lines 72-79), plus the
`requests.exceptions.JSONDecodeError` raised by `response.json()` on a
success status with a non-JSON body, which the `except requests.HTTPError`
clause does not catch and which therefore propagates unclassified. -/
inductive HandleError where
  | badRequest
  | unauthorized
  | notFound
  | requestFailed (status_code : Nat)
  | jsonDecodeError

/-- The human-readable message string each error carries: the exact
`ValueError` argument from src/api.py.  The propagated JSON decode error
carries no client-attached message (`none`). -/
def HandleError.message : HandleError → Option String
  | .badRequest => some "Bad request. Please check your input."
  | .unauthorized => some "Unauthorized. Please check your API key."
  | .notFound => some "Resource not found."
  | .requestFailed code => some s!"Request failed with status code: {code}"
  | .jsonDecodeError => none

/-- Whether `requests.Response.raise_for_status` raises `HTTPError` for a
given status code: it does exactly for client errors (400-499) and server
errors (500-599); 1xx/2xx/3xx codes do not raise. -/
def raise_for_status_raises (status_code : Nat) : Bool :=
  (400 ≤ status_code && status_code < 500) || (500 ≤ status_code && status_code < 600)

/-- `SwagUpApiClient._handle_response` (src/api.py lines 54-79): try
`raise_for_status()` then `return response.json()`; on `HTTPError`,
reclassify by status code into one of four `ValueError`s.  A JSON decode
failure on the success path is not an `HTTPError` and escapes uncaught. -/
def _handle_response (response : HttpResponse) : Except HandleError Json :=
  if raise_for_status_raises response.status_code then
    if response.status_code = 400 then
      .error .badRequest
    else if response.status_code = 401 then
      .error .unauthorized
    else if response.status_code = 404 then
      .error .notFound
    else
      .error (.requestFailed response.status_code)
  else
    match response.json_body with
    | some j => .ok j
    | none => .error .jsonDecodeError

/-- `SwagUpApiClient.create_design` (src/api.py lines 81-110): the outbound
request — POST `{base_url}/designs`, API-key header, JSON payload with the
six camelCase keys. -/
def create_design (c : SwagUpApiClient) (designer_id design_name design_description : String)
    (categories tags : List String) (price : Rat) : Request :=
  { method := .post
    url := c.base_url ++ "/designs"
    headers := [("X-SwagUp-API-Key", c.api_key)]
    body := .jsonBody (.obj
      [("designerId", .str designer_id),
       ("designName", .str design_name),
       ("designDescription", .str design_description),
       ("categories", .arr (categories.map Json.str)),
       ("tags", .arr (tags.map Json.str)),
       ("price", .num price)]) }

/-- `SwagUpApiClient.upload_image` (src/api.py lines 112-129): POST
`{base_url}/images` with the file bound to the multipart field `image`. -/
def upload_image (c : SwagUpApiClient) (image : String) : Request :=
  { method := .post
    url := c.base_url ++ "/images"
    headers := [("X-SwagUp-API-Key", c.api_key)]
    body := .multipart [("image", image)] }

/-- `SwagUpApiClient.get_design_details` (src/api.py lines 131-147): GET
`{base_url}/designs/{design_id}`, no body. -/
def get_design_details (c : SwagUpApiClient) (design_id : String) : Request :=
  { method := .get
    url := c.base_url ++ "/designs/" ++ design_id
    headers := [("X-SwagUp-API-Key", c.api_key)]
    body := .noBody }

/-- `SwagUpApiClient.choose_logo_color` (src/api.py lines 149-170): POST
`{base_url}/logo-color` with payload `{color, designId}`; the color dict is
passed through opaquely. -/
def choose_logo_color (c : SwagUpApiClient) (color : Json) (design_id : String) : Request :=
  { method := .post
    url := c.base_url ++ "/logo-color"
    headers := [("X-SwagUp-API-Key", c.api_key)]
    body := .jsonBody (.obj [("color", color), ("designId", .str design_id)]) }

/-- `SwagUpApiClient.select_size_and_quantity` (src/api.py lines 172-193):
POST `{base_url}/orders/sizes-quantity` with payload `{designId, items}`. -/
def select_size_and_quantity (c : SwagUpApiClient) (design_id : String)
    (items : List Json) : Request :=
  { method := .post
    url := c.base_url ++ "/orders/sizes-quantity"
    headers := [("X-SwagUp-API-Key", c.api_key)]
    body := .jsonBody (.obj [("designId", .str design_id), ("items", .arr items)]) }

/-- `SwagUpApiClient.set_shipping_destination` (src/api.py lines 195-216):
POST `{base_url}/orders/shipping` with payload `{designId, address}`; the
address dict is passed through opaquely. -/
def set_shipping_destination (c : SwagUpApiClient) (design_id : String)
    (address : Json) : Request :=
  { method := .post
    url := c.base_url ++ "/orders/shipping"
    headers := [("X-SwagUp-API-Key", c.api_key)]
    body := .jsonBody (.obj [("designId", .str design_id), ("address", address)]) }

/-- `SwagUpApiClient.manage_payment_methods` (src/api.py lines 218-235): POST
`{base_url}/payment-methods` with payload `{paymentMethod}`. -/
def manage_payment_methods (c : SwagUpApiClient) (payment_method : Json) : Request :=
  { method := .post
    url := c.base_url ++ "/payment-methods"
    headers := [("X-SwagUp-API-Key", c.api_key)]
    body := .jsonBody (.obj [("paymentMethod", payment_method)]) }

/-- `SwagUpApiClient.place_order` (src/api.py lines 237-258): POST
`{base_url}/orders` with payload `{designId, paymentMethodId}`. -/
def place_order (c : SwagUpApiClient) (design_id payment_method_id : String) : Request :=
  { method := .post
    url := c.base_url ++ "/orders"
    headers := [("X-SwagUp-API-Key", c.api_key)]
    body := .jsonBody (.obj
      [("designId", .str design_id), ("paymentMethodId", .str payment_method_id)]) }

/-- `SwagUpApiClient.track_order` (src/api.py lines 260-276): GET
`{base_url}/orders/{order_id}`, no body. -/
def track_order (c : SwagUpApiClient) (order_id : String) : Request :=
  { method := .get
    url := c.base_url ++ "/orders/" ++ order_id
    headers := [("X-SwagUp-API-Key", c.api_key)]
    body := .noBody }

/-- `SwagUpApiClient.cancel_order` (src/api.py lines 278-294): DELETE
`{base_url}/orders/{order_id}`, no body. -/
def cancel_order (c : SwagUpApiClient) (order_id : String) : Request :=
  { method := .delete
    url := c.base_url ++ "/orders/" ++ order_id
    headers := [("X-SwagUp-API-Key", c.api_key)]
    body := .noBody }

/-- One invocation of a client method, bundling the method's arguments. -/
inductive Operation where
  | createDesign (designer_id design_name design_description : String)
      (categories tags : List String) (price : Rat)
  | uploadImage (image : String)
  | getDesignDetails (design_id : String)
  | chooseLogoColor (color : Json) (design_id : String)
  | selectSizeAndQuantity (design_id : String) (items : List Json)
  | setShippingDestination (design_id : String) (address : Json)
  | managePaymentMethods (payment_method : Json)
  | placeOrder (design_id payment_method_id : String)
  | trackOrder (order_id : String)
  | cancelOrder (order_id : String)

/-- The outbound request each operation builds before invoking the transport. -/
def request (c : SwagUpApiClient) : Operation → Request
  | .createDesign a b d cats tgs p => create_design c a b d cats tgs p
  | .uploadImage img => upload_image c img
  | .getDesignDetails did => get_design_details c did
  | .chooseLogoColor color did => choose_logo_color c color did
  | .selectSizeAndQuantity did items => select_size_and_quantity c did items
  | .setShippingDestination did addr => set_shipping_destination c did addr
  | .managePaymentMethods pm => manage_payment_methods c pm
  | .placeOrder did pmid => place_order c did pmid
  | .trackOrder oid => track_order c oid
  | .cancelOrder oid => cancel_order c oid

/-- How each client method translates the transport's response: every one of
the ten methods ends in `return self._handle_response(response)`, one call
site per method (src/api.py lines 110, 129, 147, 170, 193, 216, 235, 258,
276, 294). -/
def translateResponse (op : Operation) (response : HttpResponse) : Except HandleError Json :=
  match op with
  | .createDesign _ _ _ _ _ _ => _handle_response response
  | .uploadImage _ => _handle_response response
  | .getDesignDetails _ => _handle_response response
  | .chooseLogoColor _ _ => _handle_response response
  | .selectSizeAndQuantity _ _ => _handle_response response
  | .setShippingDestination _ _ => _handle_response response
  | .managePaymentMethods _ => _handle_response response
  | .placeOrder _ _ => _handle_response response
  | .trackOrder _ => _handle_response response
  | .cancelOrder _ => _handle_response response

/-- One full client call: build the request, invoke the transport once,
translate the response.  The second component is the client state after the
call; no method body assigns to `self`, so the state is the one the call
started from. -/
def call (transport : Request → HttpResponse) (c : SwagUpApiClient) (op : Operation) :
    Except HandleError Json × SwagUpApiClient :=
  (translateResponse op (transport (request c op)), c)

/-- The envelope the repository's own `test_create_design` mock returns
(src/test_api.py lines 92-105). -/
def createDesignEnvelope : Json :=
  .obj
    [("status", .str "success"),
     ("message", .str "Design created successfully"),
     ("data", .obj
       [("designId", .str "123"),
        ("designerId", .str "designer123"),
        ("designName", .str "Cool Cat"),
        ("designDescription", .str "Cat wearing sunglasses"),
        ("categories", .arr [.str "Animals", .str "Humor"]),
        ("tags", .arr [.str "cat", .str "cool", .str "sunglasses"]),
        ("price", .num ((1999 : Rat) / 100)),
        ("timestamp", .str "2023-07-10T15:00:00Z")])]

/-- A well-formed envelope whose `data` object is missing every field any
result type would require. -/
def emptyDataEnvelope : Json :=
  .obj
    [("status", .str "success"),
     ("message", .str "ok"),
     ("data", .obj [])]

/-- Helper: every operation's response translation is the shared
`_handle_response` (each method body ends in `return self._handle_response(response)`). -/
theorem translateResponse_eq_handle (op : Operation) (resp : HttpResponse) :
    translateResponse op resp = _handle_response resp := by
  cases op <;> rfl

/-- Claim C1 (code-bug evidence): on the repository's own create-design mock
response (status 200 with the full `{status, message, data}` envelope,
src/test_api.py lines 92-105), the client returns the whole parsed envelope
unchanged — its top-level keys are `status`, `message`, `data`, and the
`data` fields keep their external camelCase names — rather than the unwrapped
`data` object mapped to a snake_case typed result, which is what the claim
(and the repository's own test assertions) require. -/
theorem create_design_returns_raw_envelope :
    translateResponse
        (.createDesign "designer123" "Cool Cat" "Cat wearing sunglasses"
          ["Animals", "Humor"] ["cat", "cool", "sunglasses"] ((1999 : Rat) / 100))
        { status_code := 200, json_body := some createDesignEnvelope }
      = Except.ok createDesignEnvelope ∧
    createDesignEnvelope.keys = ["status", "message", "data"] :=
  ⟨rfl, rfl⟩

/-- Claim C2: for every operation, a transport status of 400 yields the
"invalid request" classification, 401 the "unauthorized" one, and 404 the
"not found" one; each is a failure (no result value) carrying the
human-readable message raised in src/api.py lines 72-77. -/
theorem classified_errors_400_401_404 (op : Operation) (resp : HttpResponse) :
    (resp.status_code = 400 → translateResponse op resp = Except.error HandleError.badRequest) ∧
    (resp.status_code = 401 → translateResponse op resp = Except.error HandleError.unauthorized) ∧
    (resp.status_code = 404 → translateResponse op resp = Except.error HandleError.notFound) ∧
    HandleError.badRequest.message = some "Bad request. Please check your input." ∧
    HandleError.unauthorized.message = some "Unauthorized. Please check your API key." ∧
    HandleError.notFound.message = some "Resource not found." := by
  refine ⟨?_, ?_, ?_, rfl, rfl, rfl⟩ <;> intro h <;>
    rw [translateResponse_eq_handle] <;>
    simp [_handle_response, raise_for_status_raises, h]

/-- Witness for C2 at a concrete input: a 404 on cancel-order. -/
theorem classified_errors_witness :
    translateResponse (.cancelOrder "order123") { status_code := 404, json_body := none }
      = Except.error HandleError.notFound :=
  (classified_errors_400_401_404 (.cancelOrder "order123")
    { status_code := 404, json_body := none }).2.2.1 rfl

/-- Claim C3 counterexample: a 301 response is non-2xx and not one of
400/401/404, yet the call does not fail with the generic "request failed"
classification — `raise_for_status` does not raise on 3xx, so the body is
parsed and returned as a success. -/
theorem redirect_status_not_generic_failure :
    translateResponse (.trackOrder "order123")
        { status_code := 301, json_body := some (.obj []) }
      ≠ Except.error (HandleError.requestFailed 301) := by
  intro h
  have h2 : (Except.ok (Json.obj []) : Except HandleError Json)
      = Except.error (HandleError.requestFailed 301) := h
  exact Except.noConfusion h2

/-- Claim C3 as amended: for every operation and every status code in
[400, 600) other than 400, 401 and 404, the call fails with the generic
"request failed" classification carrying exactly that numeric status code;
codes below 400 (1xx/2xx/3xx) do not raise and are handled as success. -/
theorem generic_failure_carries_status (op : Operation) (resp : HttpResponse)
    (h1 : 400 ≤ resp.status_code) (h2 : resp.status_code < 600)
    (h3 : resp.status_code ≠ 400) (h4 : resp.status_code ≠ 401)
    (h5 : resp.status_code ≠ 404) :
    translateResponse op resp = Except.error (HandleError.requestFailed resp.status_code) := by
  have hr : raise_for_status_raises resp.status_code = true := by
    simp only [raise_for_status_raises, Bool.or_eq_true, Bool.and_eq_true, decide_eq_true_eq]
    omega
  rw [translateResponse_eq_handle]
  simp [_handle_response, hr, h3, h4, h5]

/-- Witness for the amended C3 at a concrete input: a 500 on place-order. -/
theorem generic_failure_witness :
    translateResponse (.placeOrder "123" "payment123")
        { status_code := 500, json_body := none }
      = Except.error (HandleError.requestFailed 500) :=
  generic_failure_carries_status (.placeOrder "123" "payment123")
    { status_code := 500, json_body := none }
    (by decide) (by decide) (by decide) (by decide) (by decide)

/-- Claim C4 counterexample: a 200 response whose well-formed envelope has a
`data` object missing every expected field is returned as a success result,
and a 200 response whose body is not valid JSON fails with the uncaught JSON
decode error, which carries no client message — in neither case does a
defined MalformedResponse classification exist or fire. -/
theorem malformed_response_not_classified :
    translateResponse
        (.createDesign "designer123" "Cool Cat" "Cat wearing sunglasses"
          ["Animals"] ["cat"] 19)
        { status_code := 200, json_body := some emptyDataEnvelope }
      = Except.ok emptyDataEnvelope ∧
    translateResponse (.getDesignDetails "123") { status_code := 200, json_body := none }
      = Except.error HandleError.jsonDecodeError ∧
    HandleError.jsonDecodeError.message = none :=
  ⟨rfl, rfl, rfl⟩

/-- Claim C4 as amended: for every operation, on a 2xx status the client
performs no required-field check — a body that parses as JSON is returned
as a success result whatever fields it contains, and a body that is not
valid JSON fails with the propagated JSON decode error (no client-defined
MalformedResponse kind, no client-attached message). -/
theorem success_body_handling (op : Operation) (resp : HttpResponse)
    (h1 : 200 ≤ resp.status_code) (h2 : resp.status_code < 300) :
    (resp.json_body = none → translateResponse op resp = Except.error HandleError.jsonDecodeError) ∧
    (∀ j : Json, resp.json_body = some j → translateResponse op resp = Except.ok j) ∧
    HandleError.jsonDecodeError.message = none := by
  have hr : raise_for_status_raises resp.status_code = false := by
    have hne : ¬ raise_for_status_raises resp.status_code = true := by
      simp only [raise_for_status_raises, Bool.or_eq_true, Bool.and_eq_true, decide_eq_true_eq]
      omega
    simpa using hne
  refine ⟨fun hb => ?_, fun j hb => ?_, rfl⟩ <;>
    rw [translateResponse_eq_handle] <;>
    simp [_handle_response, hr, hb]

/-- Witness for the amended C4 at a concrete input: a 200 with a non-JSON
body on upload-image. -/
theorem success_body_handling_witness :
    translateResponse (.uploadImage "/path/to/image.png")
        { status_code := 200, json_body := none }
      = Except.error HandleError.jsonDecodeError :=
  (success_body_handling (.uploadImage "/path/to/image.png")
    { status_code := 200, json_body := none } (by decide) (by decide)).1 rfl

/-- Claim C5: for every POST operation carrying a JSON body and all argument
values, the outbound payload has exactly the declared external camelCase
keys, in declaration order, and no others — independent of the snake_case
argument names. -/
theorem post_payload_exact_keys (c : SwagUpApiClient)
    (designer_id design_name design_description : String)
    (categories tags : List String) (price : Rat)
    (design_id payment_method_id : String)
    (color address payment_method : Json) (items : List Json) :
    (create_design c designer_id design_name design_description categories tags price).jsonBodyKeys
      = ["designerId", "designName", "designDescription", "categories", "tags", "price"] ∧
    (choose_logo_color c color design_id).jsonBodyKeys = ["color", "designId"] ∧
    (select_size_and_quantity c design_id items).jsonBodyKeys = ["designId", "items"] ∧
    (set_shipping_destination c design_id address).jsonBodyKeys = ["designId", "address"] ∧
    (manage_payment_methods c payment_method).jsonBodyKeys = ["paymentMethod"] ∧
    (place_order c design_id payment_method_id).jsonBodyKeys
      = ["designId", "paymentMethodId"] :=
  ⟨rfl, rfl, rfl, rfl, rfl, rfl⟩

/-- Claim C6: every operation uses exactly the verb and path template of the
operation table, with identifiers substituted verbatim (plain string
concatenation, no escaping or transformation). -/
theorem request_verbs_and_paths (c : SwagUpApiClient)
    (designer_id design_name design_description : String)
    (categories tags : List String) (price : Rat)
    (image design_id order_id payment_method_id : String)
    (color address payment_method : Json) (items : List Json) :
    (create_design c designer_id design_name design_description categories tags price).method
      = HttpMethod.post ∧
    (create_design c designer_id design_name design_description categories tags price).url
      = c.base_url ++ "/designs" ∧
    (upload_image c image).method = HttpMethod.post ∧
    (upload_image c image).url = c.base_url ++ "/images" ∧
    (get_design_details c design_id).method = HttpMethod.get ∧
    (get_design_details c design_id).url = c.base_url ++ "/designs/" ++ design_id ∧
    (choose_logo_color c color design_id).method = HttpMethod.post ∧
    (choose_logo_color c color design_id).url = c.base_url ++ "/logo-color" ∧
    (select_size_and_quantity c design_id items).method = HttpMethod.post ∧
    (select_size_and_quantity c design_id items).url = c.base_url ++ "/orders/sizes-quantity" ∧
    (set_shipping_destination c design_id address).method = HttpMethod.post ∧
    (set_shipping_destination c design_id address).url = c.base_url ++ "/orders/shipping" ∧
    (manage_payment_methods c payment_method).method = HttpMethod.post ∧
    (manage_payment_methods c payment_method).url = c.base_url ++ "/payment-methods" ∧
    (place_order c design_id payment_method_id).method = HttpMethod.post ∧
    (place_order c design_id payment_method_id).url = c.base_url ++ "/orders" ∧
    (track_order c order_id).method = HttpMethod.get ∧
    (track_order c order_id).url = c.base_url ++ "/orders/" ++ order_id ∧
    (cancel_order c order_id).method = HttpMethod.delete ∧
    (cancel_order c order_id).url = c.base_url ++ "/orders/" ++ order_id :=
  ⟨rfl, rfl, rfl, rfl, rfl, rfl, rfl, rfl, rfl, rfl,
   rfl, rfl, rfl, rfl, rfl, rfl, rfl, rfl, rfl, rfl⟩

/-- Claim C7: every operation's outbound request carries exactly the fixed
authentication header `X-SwagUp-API-Key` bound to the key supplied at
construction. -/
theorem auth_header_on_every_request (c : SwagUpApiClient) (op : Operation) :
    (request c op).headers = [("X-SwagUp-API-Key", c.api_key)] := by
  cases op <;> rfl

/-- Claim C8: for every input, upload-image sends the file as the multipart
form field `image` — not as a JSON body — so the request's content type
indicates multipart form encoding. -/
theorem upload_image_multipart (c : SwagUpApiClient) (image : String) :
    (upload_image c image).body = RequestBody.multipart [("image", image)] ∧
    (upload_image c image).contentType = "multipart/form-data" ∧
    (upload_image c image).body.isJson = false :=
  ⟨rfl, rfl, rfl⟩

/-- Claim C9: the client configuration is unchanged by every call — whatever
the transport returns (success or any failure), the base address and API key
after the call equal the values given to the constructor. -/
theorem client_config_immutable (transport : Request → HttpResponse)
    (c : SwagUpApiClient) (op : Operation) :
    ((call transport c op).2).base_url = c.base_url ∧
    ((call transport c op).2).api_key = c.api_key :=
  ⟨rfl, rfl⟩

/-- Claim C10: response translation is uniform across operations — any two
calls whose transport responses agree on status code and JSON body produce
the identical translated outcome, because all ten methods delegate to the
single shared `_handle_response`. -/
theorem uniform_response_translation (op1 op2 : Operation) (r1 r2 : HttpResponse)
    (hs : r1.status_code = r2.status_code) (hb : r1.json_body = r2.json_body) :
    translateResponse op1 r1 = translateResponse op2 r2 := by
  obtain ⟨s1, b1⟩ := r1
  obtain ⟨s2, b2⟩ := r2
  cases hs
  cases hb
  rw [translateResponse_eq_handle, translateResponse_eq_handle]

/-- Witness for C10 at concrete inputs: a create-design call and a
cancel-order call whose responses are both a 404 with a non-JSON body. -/
theorem uniform_response_translation_witness :
    translateResponse (.createDesign "d" "n" "desc" [] [] 0)
        { status_code := 404, json_body := none }
      = translateResponse (.cancelOrder "order123")
        { status_code := 404, json_body := none } :=
  uniform_response_translation (.createDesign "d" "n" "desc" [] [] 0)
    (.cancelOrder "order123")
    { status_code := 404, json_body := none }
    { status_code := 404, json_body := none } rfl rfl
